import Mathlib

/-!
Shallow embedding of `src/intrusive_ptr.h`: the intrusive, reference-counted
smart pointer `intrusive_ptr<T>`, the counter mixin `intrusive_ref_counter<T>`,
and the two free counting functions `intrusive_ptr_add_ref` and
`intrusive_ptr_release`.

Machine integers: `ref_count` is a `std::atomic<size_t>`, so its arithmetic is
modelled on `Nat` modulo `SIZE_MOD = 2 ^ 64`; `use_count()` casts the loaded
value with `static_cast<unsigned int>`, modelled as reduction modulo
`UINT_MOD = 2 ^ 32`.  Pointers are `Option Nat` (`none` is the null pointer);
a heap maps each address to the embedded counter of the object allocated
there and records how many times `delete` has run at the address.  Undefined
behaviour (dereferencing a null or dangling pointer) is modelled as a `none`
result.
-/

set_option maxRecDepth 8192

def SIZE_MOD : Nat := 2 ^ 64

def UINT_MOD : Nat := 2 ^ 32

/-- Memory state: `mem a` is the embedded `ref_count` of the object allocated
at address `a` (`none` when no object is allocated there); `dtorRuns a` counts
how many times `delete` has run at address `a`. -/
@[ext]
structure Heap where
  mem : Nat → Option Nat
  dtorRuns : Nat → Nat

/-- Source `intrusive_ref_counter<T>::use_count`:
`static_cast<unsigned int>(ref_count.load(std::memory_order_relaxed))`. -/
def use_count (c : Nat) : Nat := c % UINT_MOD

/-- Source `intrusive_ptr_add_ref(p)`:
`p->ref_count.fetch_add(1, std::memory_order_relaxed)`.
A null or dangling `p` dereferences invalid memory, modelled as `none`. -/
def intrusive_ptr_add_ref (h : Heap) (p : Option Nat) : Option Heap :=
  match p with
  | none => none
  | some a =>
    match h.mem a with
    | none => none
    | some c =>
      some ⟨fun y => if y = a then some ((c + 1) % SIZE_MOD) else h.mem y, h.dtorRuns⟩

/-- Source `intrusive_ptr_release(p)`:
`p->ref_count.fetch_sub(1, std::memory_order_acq_rel); if (p->use_count() == 0) delete p;`.
Note the re-check goes through `use_count()`, i.e. through the
`unsigned int` cast, not through the value returned by `fetch_sub`. -/
def intrusive_ptr_release (h : Heap) (p : Option Nat) : Option Heap :=
  match p with
  | none => none
  | some a =>
    match h.mem a with
    | none => none
    | some c =>
      let c2 := (c + (SIZE_MOD - 1)) % SIZE_MOD
      if use_count c2 = 0 then
        some ⟨fun y => if y = a then none else h.mem y,
              fun y => if y = a then h.dtorRuns y + 1 else h.dtorRuns y⟩
      else
        some ⟨fun y => if y = a then some c2 else h.mem y, h.dtorRuns⟩

/-- The handle `intrusive_ptr<T>`: holds one raw address, possibly null
(`T* ptr{ nullptr }`). -/
structure intrusive_ptr where
  ptr : Option Nat
deriving DecidableEq

/-- Source default constructor `intrusive_ptr() = default`: null handle. -/
def intrusive_ptr.mk_default : intrusive_ptr := ⟨none⟩

/-- Source `intrusive_ptr(T* p, bool add_ref = true)`: stores `p` and, when
`add_ref` is set, calls `intrusive_ptr_add_ref(ptr)` unconditionally — this
path has no null check (unlike the copy constructor). -/
def intrusive_ptr.mk_raw (h : Heap) (p : Option Nat) (add_ref : Bool) :
    Option (intrusive_ptr × Heap) :=
  if add_ref then
    match intrusive_ptr_add_ref h p with
    | none => none
    | some h1 => some (⟨p⟩, h1)
  else
    some (⟨p⟩, h)

/-- Source copy constructor `intrusive_ptr(intrusive_ptr const& r)`: stores
`r.ptr` and increments only when `ptr != nullptr`. -/
def intrusive_ptr.mk_copy (h : Heap) (r : intrusive_ptr) :
    Option (intrusive_ptr × Heap) :=
  match r.ptr with
  | none => some (⟨none⟩, h)
  | some a =>
    match intrusive_ptr_add_ref h (some a) with
    | none => none
    | some h1 => some (⟨some a⟩, h1)

/-- Source move constructor `intrusive_ptr(intrusive_ptr&& r)`: steals the
address, nulls the source, touches no counter.  Returns
(new handle, moved-from source). -/
def intrusive_ptr.mk_move (r : intrusive_ptr) : intrusive_ptr × intrusive_ptr :=
  (⟨r.ptr⟩, ⟨none⟩)

/-- Source destructor `~intrusive_ptr()`:
`if (ptr != nullptr) intrusive_ptr_release(ptr);`. -/
def intrusive_ptr.dtor (h : Heap) (x : intrusive_ptr) : Option Heap :=
  match x.ptr with
  | none => some h
  | some a => intrusive_ptr_release h (some a)

/-- Source `get()`: returns the raw address, never touches the counter. -/
def intrusive_ptr.get (x : intrusive_ptr) : Option Nat := x.ptr

/-- Source `detach()`: `T* res = ptr; ptr = nullptr; return res;` — no
counter traffic.  Returns (raw address, cleared handle). -/
def intrusive_ptr.detach (x : intrusive_ptr) : Option Nat × intrusive_ptr :=
  (x.ptr, ⟨none⟩)

/-- Source `explicit operator bool()`: `get() != nullptr`. -/
def intrusive_ptr.toBool (x : intrusive_ptr) : Bool := x.ptr.isSome

/-- Source `swap(intrusive_ptr& b)`: `std::swap(ptr, b.ptr)`. -/
def intrusive_ptr.swapWith (x b : intrusive_ptr) : intrusive_ptr × intrusive_ptr :=
  (⟨b.ptr⟩, ⟨x.ptr⟩)

/-- Source copy assignment in the self-assignment case `h = h`:
`intrusive_ptr(r).swap(*this); return *this;` with `r` aliasing `*this`.
The temporary copy-constructs (incrementing) from `*this`, swaps with
`*this`, and is then destroyed (releasing). -/
def intrusive_ptr.copy_assign_self (h : Heap) (x : intrusive_ptr) :
    Option (intrusive_ptr × Heap) :=
  match intrusive_ptr.mk_copy h x with
  | none => none
  | some (tmp, h1) =>
    match intrusive_ptr.dtor h1 (⟨x.ptr⟩ : intrusive_ptr) with
    | none => none
    | some h2 => some (⟨tmp.ptr⟩, h2)

/-- Source move assignment `operator=(intrusive_ptr&& r)` for `dst` and `r`
distinct handle objects: `intrusive_ptr(std::move(r)).swap(*this)`.
The temporary steals `r.ptr` (nulling `r`), swaps with `dst`, and is then
destroyed, releasing the address `dst` held before.  Returns
(new dst, moved-from r, heap). -/
def intrusive_ptr.move_assign (h : Heap) (dst r : intrusive_ptr) :
    Option (intrusive_ptr × intrusive_ptr × Heap) :=
  let tmp : intrusive_ptr := ⟨r.ptr⟩
  let r1 : intrusive_ptr := ⟨none⟩
  let dst1 : intrusive_ptr := ⟨tmp.ptr⟩
  let tmp1 : intrusive_ptr := ⟨dst.ptr⟩
  match intrusive_ptr.dtor h tmp1 with
  | none => none
  | some h1 => some (dst1, r1, h1)

/-- Source move assignment in the self-assignment case `h = std::move(h)`:
`intrusive_ptr(std::move(r)).swap(*this)` with `r` aliasing `*this`.
The move constructor reads `r.ptr` into the temporary and nulls `r`
(i.e. nulls `*this`); the swap then gives `*this` the temporary's address
and the temporary the now-null address, so its destructor releases
nothing. -/
def intrusive_ptr.move_assign_self (h : Heap) (x : intrusive_ptr) :
    Option (intrusive_ptr × Heap) :=
  let tmp : intrusive_ptr := ⟨x.ptr⟩
  let x1 : intrusive_ptr := ⟨none⟩
  let x2 : intrusive_ptr := ⟨tmp.ptr⟩
  let tmp1 : intrusive_ptr := ⟨x1.ptr⟩
  match intrusive_ptr.dtor h tmp1 with
  | none => none
  | some h1 => some (x2, h1)

/-- Composite for claim C2: copy-construct a second handle from `x`, then
destroy that copy; returns the resulting heap. -/
def intrusive_ptr.copy_then_drop (h : Heap) (x : intrusive_ptr) : Option Heap :=
  match intrusive_ptr.mk_copy h x with
  | none => none
  | some (y, h1) => intrusive_ptr.dtor h1 y

/-- The counter mixin `intrusive_ref_counter<T>` in isolation: its only data
member is `mutable std::atomic<size_t> ref_count{ 0 }`. -/
structure intrusive_ref_counter where
  ref_count : Nat
deriving DecidableEq

/-- Source default constructor: the counter member initializer gives 0. -/
def intrusive_ref_counter.mk_default : intrusive_ref_counter := ⟨0⟩

/-- Source copy constructor `intrusive_ref_counter(const intrusive_ref_counter& v)`:
member initializer `ref_count(0)` — the source's count is never read. -/
def intrusive_ref_counter.mk_copy (v : intrusive_ref_counter) : intrusive_ref_counter :=
  ⟨0⟩

/-- Source copy assignment `operator=(const intrusive_ref_counter& v)`:
body is `return *this;` — the target keeps its own counter untouched. -/
def intrusive_ref_counter.copy_assign (dst v : intrusive_ref_counter) :
    intrusive_ref_counter := dst

/-- A heap holding exactly one object, at address 0, with counter `c`. -/
def oneObjHeap (c : Nat) : Heap :=
  ⟨fun a => if a = 0 then some c else none, fun _ => 0⟩

/-- For claim C9: make `n` successive copies of the handle `x` (all kept
alive, no drops), threading the heap. -/
def copies : Heap → intrusive_ptr → Nat → Option Heap
  | h, _, 0 => some h
  | h, x, n + 1 =>
    match intrusive_ptr.mk_copy h x with
    | none => none
    | some (_, h1) => copies h1 x n

/-- For claim C9: allocate a fresh object (counter 0) at address 0, wrap it in
an owning handle via `intrusive_ptr(p)` (sole owner), make `k` copies, then
read `use_count()` on the object. -/
def use_count_after_copies (k : Nat) : Option Nat :=
  match intrusive_ptr.mk_raw (oneObjHeap 0) (some 0) true with
  | none => none
  | some (x, h1) =>
    match copies h1 x k with
    | none => none
    | some h2 =>
      match h2.mem 0 with
      | none => none
      | some c => some (use_count c)

/-- Interleaving model for claim C1: one shared object with counter `count`;
`dtorRuns` counts executions of `delete`; `pcs` is the program counter of
each thread running `intrusive_ptr_release` on that object.
pc 0: about to execute `ref_count.fetch_sub(1, acq_rel)`;
pc 1: about to execute the `use_count() == 0` re-check (a relaxed load);
pc 2: the re-check read 0, about to execute `delete p`;
pc 3: finished. -/
structure RelState where
  count : Nat
  dtorRuns : Nat
  pcs : List Nat

/-- One atomic step of thread `i` inside `intrusive_ptr_release`. -/
def relStep (s : RelState) (i : Nat) : RelState :=
  match s.pcs.get? i with
  | none => s
  | some pc =>
    if pc = 0 then
      ⟨(s.count + (SIZE_MOD - 1)) % SIZE_MOD, s.dtorRuns, s.pcs.set i 1⟩
    else if pc = 1 then
      if use_count s.count = 0 then ⟨s.count, s.dtorRuns, s.pcs.set i 2⟩
      else ⟨s.count, s.dtorRuns, s.pcs.set i 3⟩
    else if pc = 2 then
      ⟨s.count, s.dtorRuns + 1, s.pcs.set i 3⟩
    else s

/-- Run a schedule (a list of thread ids, each entry letting that thread take
its next atomic step of `intrusive_ptr_release`). -/
def runRelease (s : RelState) (sched : List Nat) : RelState :=
  sched.foldl relStep s

/-- For claim C4: destruction state of an object whose most-derived type
derives from the mixin and adds its own destruction work beyond the base
subobject. -/
structure DerivedState where
  baseDestroyed : Bool
  derivedDestroyed : Bool

/-- In the source, `~intrusive_ref_counter() = default;` carries no `virtual`
keyword. -/
def mixin_dtor_virtual : Bool := false

/-- Semantics of C++ `delete` applied to a base-class pointer: the
most-derived destructor runs only when the base destructor is virtual;
otherwise only the base subobject's destructor runs (undefined behaviour
when the most-derived object is not of the base type). -/
def delete_via_base (o : DerivedState) : DerivedState :=
  if mixin_dtor_virtual then ⟨true, true⟩ else ⟨true, o.derivedDestroyed⟩

/-- The destroy step of `intrusive_ptr_release`: `delete p` where `p` has
static type `const intrusive_ref_counter<Derived>*`, i.e. a delete through
the mixin-typed base pointer. -/
def release_destroy_step (o : DerivedState) : DerivedState :=
  delete_via_base o

/-- Modelled from the spec: destruction of the full, most-derived pointee
object, which claim C4 requires of the destroy step. -/
def destroy_most_derived (o : DerivedState) : DerivedState :=
  ⟨true, true⟩

/-- Modular arithmetic of the counter: incrementing (`fetch_add`) and then
decrementing (`fetch_sub`) a `size_t` counter restores its value. -/
theorem dec_wrap_inc (c : Nat) (hlt : c < SIZE_MOD) :
    ((c + 1) % SIZE_MOD + (SIZE_MOD - 1)) % SIZE_MOD = c := by
  rw [Nat.mod_add_mod]
  have h1 : c + 1 + (SIZE_MOD - 1) = c + SIZE_MOD := by
    have h2 : (1 : Nat) ≤ SIZE_MOD := by norm_num [SIZE_MOD]
    omega
  rw [h1, Nat.add_mod_right]
  exact Nat.mod_eq_of_lt hlt

/-- Evaluating `intrusive_ptr_add_ref` on an allocated address. -/
theorem add_ref_eq (h : Heap) (a c : Nat) (hm : h.mem a = some c) :
    intrusive_ptr_add_ref h (some a) =
      some ⟨fun y => if y = a then some ((c + 1) % SIZE_MOD) else h.mem y, h.dtorRuns⟩ := by
  simp [intrusive_ptr_add_ref, hm]

/-- Evaluating `intrusive_ptr_release` on an allocated address whose
decremented count is not reported as zero by `use_count()`: the counter is
decremented in place and nothing is destroyed. -/
theorem release_keep (h : Heap) (a c : Nat) (hm : h.mem a = some c)
    (hnz : use_count ((c + (SIZE_MOD - 1)) % SIZE_MOD) ≠ 0) :
    intrusive_ptr_release h (some a) =
      some ⟨fun y => if y = a then some ((c + (SIZE_MOD - 1)) % SIZE_MOD) else h.mem y,
            h.dtorRuns⟩ := by
  simp [intrusive_ptr_release, hm, hnz]

/-- An `intrusive_ptr_add_ref` followed by an `intrusive_ptr_release` on the
same address restores the heap, provided the starting count is in range and
the restored count does not pass the `use_count() == 0` re-check. -/
theorem add_ref_then_release (h h1 : Heap) (a c : Nat)
    (hm : h.mem a = some c) (hlt : c < SIZE_MOD) (hnz : c % UINT_MOD ≠ 0)
    (hadd : intrusive_ptr_add_ref h (some a) = some h1) :
    intrusive_ptr_release h1 (some a) = some h := by
  rw [add_ref_eq h a c hm] at hadd
  injection hadd with hh
  have hmem1 : h1.mem a = some ((c + 1) % SIZE_MOD) := by rw [← hh]; simp
  have hmemo : ∀ y, y ≠ a → h1.mem y = h.mem y := by
    intro y hy; rw [← hh]; simp [hy]
  have hdt : h1.dtorRuns = h.dtorRuns := by rw [← hh]
  have hnzB : use_count (((c + 1) % SIZE_MOD + (SIZE_MOD - 1)) % SIZE_MOD) ≠ 0 := by
    rw [dec_wrap_inc c hlt]; simpa [use_count] using hnz
  rw [release_keep h1 a ((c + 1) % SIZE_MOD) hmem1 hnzB]
  refine congrArg some ?_
  ext y
  · by_cases hy : y = a
    · subst hy; simp [dec_wrap_inc c hlt, hm]
    · simp [hy, hmemo y hy]
  · rw [hdt]

/-- `intrusive_ptr_release` at address `b` leaves the counter at any other
address unchanged. -/
theorem release_preserves_other (h h1 : Heap) (b y : Nat)
    (hrel : intrusive_ptr_release h (some b) = some h1) (hne : y ≠ b) :
    h1.mem y = h.mem y := by
  cases hmb : h.mem b with
  | none => simp [intrusive_ptr_release, hmb] at hrel
  | some c =>
    simp only [intrusive_ptr_release, hmb] at hrel
    by_cases h0 : use_count ((c + (SIZE_MOD - 1)) % SIZE_MOD) = 0
    · rw [if_pos h0] at hrel
      have hh := Option.some.inj hrel
      rw [← hh]
      simp [hne]
    · rw [if_neg h0] at hrel
      have hh := Option.some.inj hrel
      rw [← hh]
      simp [hne]

/-- Counting copies: after `k` successive copy-constructions from a handle on
an object whose counter is `c` (no drops), the counter reads `c + k`, as long
as no `size_t` overflow occurs. -/
theorem copies_count : ∀ (k : Nat) (h : Heap) (x : intrusive_ptr) (a c : Nat),
    x.ptr = some a → h.mem a = some c → c + k < SIZE_MOD →
    ∃ h2, copies h x k = some h2 ∧ h2.mem a = some (c + k) := by
  intro k
  induction k with
  | zero =>
    intro h x a c hx hm hlt
    exact ⟨h, rfl, by simpa using hm⟩
  | succ n ih =>
    intro h x a c hx hm hlt
    have hadd := add_ref_eq h a c hm
    have hmod : (c + 1) % SIZE_MOD = c + 1 := Nat.mod_eq_of_lt (by omega)
    have hmem1 : (⟨fun y => if y = a then some ((c + 1) % SIZE_MOD) else h.mem y,
        h.dtorRuns⟩ : Heap).mem a = some (c + 1) := by simp [hmod]
    obtain ⟨h2, hc, hm2⟩ := ih _ x a (c + 1) hx hmem1 (by omega)
    refine ⟨h2, ?_, ?_⟩
    · simp [copies, intrusive_ptr.mk_copy, hx, hadd, hc]
    · have harith : c + 1 + n = c + (n + 1) := by omega
      rw [hm2, harith]

/-- Claim C1 (code evaluated at the failing input): with two handles on one
object (counter 2) and two threads concurrently executing
`intrusive_ptr_release`, the interleaving "A decrements, B decrements,
A re-checks, B re-checks, A deletes, B deletes" runs the destructor twice,
because the re-check reads the counter through `use_count()` instead of using
the value returned by `fetch_sub`; the purely sequential schedule runs it
exactly once. -/
theorem C1_concurrent_release_double_delete :
    (runRelease ⟨2, 0, [0, 0]⟩ [0, 1, 0, 1, 0, 1]).dtorRuns = 2 ∧
    (runRelease ⟨2, 0, [0, 0]⟩ [0, 0, 0, 1, 1, 1]).dtorRuns = 1 := by
  exact ⟨by decide, by decide⟩

/-- Claim C2 (amended): copy-constructing a handle increments the pointee's
counter by exactly 1 and copies the address; destroying the copy decrements by
exactly 1; for every starting count that is in `size_t` range and not a
multiple of 2^32 (in particular every well-formed count from 1 to 2^32 - 1),
the net effect of copy-then-drop on the heap is zero and the original
handle's address is unchanged. -/
theorem C2_copy_then_drop_net_zero (h : Heap) (x : intrusive_ptr) (a c : Nat)
    (hx : x.ptr = some a) (hm : h.mem a = some c) (hlt : c < SIZE_MOD)
    (hnz : c % UINT_MOD ≠ 0) :
    (∃ h1, intrusive_ptr.mk_copy h x = some (⟨some a⟩, h1) ∧
        h1.mem a = some ((c + 1) % SIZE_MOD)) ∧
    intrusive_ptr.copy_then_drop h x = some h := by
  have hadd := add_ref_eq h a c hm
  constructor
  · refine ⟨⟨fun y => if y = a then some ((c + 1) % SIZE_MOD) else h.mem y,
      h.dtorRuns⟩, ?_, ?_⟩
    · simp [intrusive_ptr.mk_copy, hx, hadd]
    · simp
  · have hrel := add_ref_then_release h _ a c hm hlt hnz hadd
    simp [intrusive_ptr.copy_then_drop, intrusive_ptr.mk_copy, hx, hadd,
      intrusive_ptr.dtor, hrel]

/-- Witness for claim C2: one object at count 1, copy then drop restores the
heap exactly. -/
theorem C2_copy_then_drop_net_zero_witness :
    intrusive_ptr.copy_then_drop (oneObjHeap 1) ⟨some 0⟩ = some (oneObjHeap 1) :=
  (C2_copy_then_drop_net_zero (oneObjHeap 1) ⟨some 0⟩ 0 1 rfl rfl (by decide)
    (by decide)).2

/-- Counterexample for claim C2 as stated: at starting count 0 (an object
adopted with `add_ref = false` straight after allocation), copy-then-drop does
not leave the counter unchanged — the drop's `use_count() == 0` re-check
frees the object (counter slot gone, destructor has run once). -/
theorem C2_zero_count_copy_drop_frees :
    Option.map (fun h2 => h2.mem 0)
        (intrusive_ptr.copy_then_drop (oneObjHeap 0) ⟨some 0⟩) ≠ some (some 0) ∧
    Option.map (fun h2 => (h2.mem 0, h2.dtorRuns 0))
        (intrusive_ptr.copy_then_drop (oneObjHeap 0) ⟨some 0⟩) = some (none, 1) := by
  exact ⟨by decide, by decide⟩

/-- Claim C3 (code evaluated at the failing input): constructing a handle from
the null address with `add_ref = true` (the default) calls
`intrusive_ptr_add_ref(nullptr)` and dereferences null — undefined behaviour,
modelled as `none` — while the `add_ref = false` path yields the valid null
handle, with no increment, that the claim describes for both paths. -/
theorem C3_null_raw_ctor_dereferences_null (h : Heap) :
    intrusive_ptr.mk_raw h none true = none ∧
    intrusive_ptr.mk_raw h none false = some (⟨none⟩, h) :=
  ⟨rfl, rfl⟩

/-- Claim C4 (code evaluated at the failing input): the destroy step of
`intrusive_ptr_release` is `delete p` at static type
`const intrusive_ref_counter<Derived>*`, and `~intrusive_ref_counter` is not
virtual, so on an object whose most-derived part has its own destruction work
the step destroys only the mixin base subobject, not the full most-derived
object the claim requires. -/
theorem C4_release_destroys_base_subobject_only :
    (release_destroy_step ⟨false, false⟩).derivedDestroyed = false ∧
    release_destroy_step ⟨false, false⟩ ≠ destroy_most_derived ⟨false, false⟩ := by
  constructor
  · rfl
  · intro hcontra
    exact Bool.false_ne_true (congrArg DerivedState.derivedDestroyed hcontra)

/-- Claim C5 (amended): move construction transfers the address, nulls the
source and touches no counter; move assignment does the same transfer and
additionally releases the destination's previous reference, so the source's
pointee counter is unchanged provided the destination did not already hold a
reference to that same object. -/
theorem C5_move_transfer (h h1 : Heap) (dst r : intrusive_ptr) (a : Nat)
    (hr : r.ptr = some a) (hdst : dst.ptr ≠ some a)
    (hdtor : intrusive_ptr.dtor h dst = some h1) :
    intrusive_ptr.mk_move r = (⟨some a⟩, ⟨none⟩) ∧
    intrusive_ptr.move_assign h dst r = some (⟨some a⟩, ⟨none⟩, h1) ∧
    h1.mem a = h.mem a := by
  refine ⟨?_, ?_, ?_⟩
  · simp [intrusive_ptr.mk_move, hr]
  · have hd2 : intrusive_ptr.dtor h (⟨dst.ptr⟩ : intrusive_ptr) = some h1 := hdtor
    simp [intrusive_ptr.move_assign, hd2, hr]
  · cases hdp : dst.ptr with
    | none =>
      unfold intrusive_ptr.dtor at hdtor
      rw [hdp] at hdtor
      rw [← Option.some.inj hdtor]
    | some b =>
      unfold intrusive_ptr.dtor at hdtor
      rw [hdp] at hdtor
      have hab : a ≠ b := by
        intro hcontra
        exact hdst (by rw [hdp, hcontra])
      exact release_preserves_other h h1 b a hdtor hab

/-- Witness for claim C5: moving a handle on a count-1 object into a null
destination transfers the address, nulls the source and leaves the heap
untouched. -/
theorem C5_move_transfer_witness :
    intrusive_ptr.mk_move ⟨some 0⟩ = (⟨some 0⟩, ⟨none⟩) ∧
    intrusive_ptr.move_assign (oneObjHeap 1) ⟨none⟩ ⟨some 0⟩ =
      some (⟨some 0⟩, ⟨none⟩, oneObjHeap 1) ∧
    (oneObjHeap 1).mem 0 = (oneObjHeap 1).mem 0 :=
  C5_move_transfer (oneObjHeap 1) (oneObjHeap 1) ⟨none⟩ ⟨some 0⟩ 0 rfl
    (by decide) rfl

/-- Counterexample for claim C5 as stated: when the destination already holds
a reference to the same pointee (counter 2, both handles on address 0), move
assignment decrements the shared counter from 2 to 1 — not "unchanged". -/
theorem C5_move_assign_same_pointee_decrements :
    Option.map (fun t => t.2.2.mem 0)
        (intrusive_ptr.move_assign (oneObjHeap 2) ⟨some 0⟩ ⟨some 0⟩) ≠
      some (some 2) ∧
    Option.map (fun t => (t.1, t.2.1, t.2.2.mem 0))
        (intrusive_ptr.move_assign (oneObjHeap 2) ⟨some 0⟩ ⟨some 0⟩) =
      some (⟨some 0⟩, ⟨none⟩, some 1) := by
  exact ⟨by decide, by decide⟩

/-- Claim C6: `detach()` returns the raw address and clears the handle to null
without any decrement, and reconstructing a handle from that address with
`takeOwnership = false` restores exactly the original handle and heap (same
address held, same counter value). -/
theorem C6_detach_then_adopt_roundtrip (h : Heap) (x : intrusive_ptr) (a : Nat)
    (hx : x.ptr = some a) :
    intrusive_ptr.detach x = (some a, ⟨none⟩) ∧
    intrusive_ptr.mk_raw h (some a) false = some (x, h) := by
  have hxeq : x = ⟨some a⟩ := by
    cases x with
    | mk p => exact congrArg intrusive_ptr.mk (hx : p = some a)
  subst hxeq
  exact ⟨rfl, rfl⟩

/-- Witness for claim C6 at a concrete non-null handle. -/
theorem C6_detach_then_adopt_roundtrip_witness :
    intrusive_ptr.detach ⟨some 0⟩ = (some 0, ⟨none⟩) ∧
    intrusive_ptr.mk_raw (oneObjHeap 1) (some 0) false =
      some (⟨some 0⟩, oneObjHeap 1) :=
  C6_detach_then_adopt_roundtrip (oneObjHeap 1) ⟨some 0⟩ 0 rfl

/-- Claim C7 (amended): self copy-assignment `h = h` returns the handle and
heap unchanged for every handle that is null or whose pointee's counter is in
`size_t` range and not a multiple of 2^32 (in particular every well-formed
count from 1 to 2^32 - 1). -/
theorem C7_self_copy_assign_id (h : Heap) (x : intrusive_ptr)
    (hok : x.ptr = none ∨ ∃ a c, x.ptr = some a ∧ h.mem a = some c ∧
      c < SIZE_MOD ∧ c % UINT_MOD ≠ 0) :
    intrusive_ptr.copy_assign_self h x = some (x, h) := by
  rcases hok with hnull | ⟨a, c, hx, hm, hlt, hnz⟩
  · have hxeq : x = ⟨none⟩ := by
      cases x with
      | mk p => exact congrArg intrusive_ptr.mk (hnull : p = none)
    subst hxeq
    rfl
  · have hxeq : x = ⟨some a⟩ := by
      cases x with
      | mk p => exact congrArg intrusive_ptr.mk (hx : p = some a)
    subst hxeq
    have hadd := add_ref_eq h a c hm
    have hrel := add_ref_then_release h _ a c hm hlt hnz hadd
    simp [intrusive_ptr.copy_assign_self, intrusive_ptr.mk_copy, hadd,
      intrusive_ptr.dtor, hrel]

/-- Witness for claim C7 at a concrete non-null handle on a count-1 object. -/
theorem C7_self_copy_assign_id_witness :
    intrusive_ptr.copy_assign_self (oneObjHeap 1) ⟨some 0⟩ =
      some (⟨some 0⟩, oneObjHeap 1) :=
  C7_self_copy_assign_id (oneObjHeap 1) ⟨some 0⟩
    (Or.inr ⟨0, 1, rfl, rfl, by decide, by decide⟩)

/-- Counterexample for claim C7 as stated: for a (reachable) handle on an
object whose counter is 0 — adopted with `add_ref = false` straight after
allocation — `h = h` frees the pointee: the temporary's destructor observes
`use_count() == 0` and deletes, so counter and object are not unchanged. -/
theorem C7_self_copy_assign_zero_count_frees :
    Option.map (fun pr => pr.2.mem 0)
        (intrusive_ptr.copy_assign_self (oneObjHeap 0) ⟨some 0⟩) ≠
      some (some 0) ∧
    Option.map (fun pr => (pr.1, pr.2.mem 0, pr.2.dtorRuns 0))
        (intrusive_ptr.copy_assign_self (oneObjHeap 0) ⟨some 0⟩) =
      some (⟨some 0⟩, none, 1) := by
  exact ⟨by decide, by decide⟩

/-- Claim C8 (amended): the counter is never copied between objects —
copy-construction initializes the new object's counter to zero regardless of
the source's count, and copy-assignment leaves the target's counter at its
prior value (not zero), also regardless of the source's count. -/
theorem C8_counter_never_copied (dst src : intrusive_ref_counter) :
    (intrusive_ref_counter.mk_copy src).ref_count = 0 ∧
    intrusive_ref_counter.copy_assign dst src = dst :=
  ⟨rfl, rfl⟩

/-- Counterexample for claim C8 as stated: copy-assigning a source with count
5 onto a target with count 3 leaves the target's counter at 3, not zero. -/
theorem C8_copy_assign_target_count_not_zero :
    (intrusive_ref_counter.copy_assign ⟨3⟩ ⟨5⟩).ref_count ≠ 0 := by
  decide

/-- Claim C9 (amended): starting from a sole owner (a fresh object wrapped by
`intrusive_ptr(p)`, counter 1), after sequentially making `k` copies with no
drops, `use_count()` returns `k + 1` — the `k` copies plus the original
owning handle — whenever `k + 1` fits in `unsigned int`. -/
theorem C9_use_count_after_k_copies (k : Nat) (hk : k + 1 < UINT_MOD) :
    use_count_after_copies k = some (k + 1) := by
  have hadd := add_ref_eq (oneObjHeap 0) 0 0 rfl
  have hmk : intrusive_ptr.mk_raw (oneObjHeap 0) (some 0) true =
      some (⟨some 0⟩, ⟨fun y => if y = 0 then some ((0 + 1) % SIZE_MOD)
        else (oneObjHeap 0).mem y, (oneObjHeap 0).dtorRuns⟩) := by
    simp [intrusive_ptr.mk_raw, hadd]
  have hmod1 : (0 + 1) % SIZE_MOD = 1 := by norm_num [SIZE_MOD]
  have hmem1 : (⟨fun y => if y = 0 then some ((0 + 1) % SIZE_MOD)
      else (oneObjHeap 0).mem y, (oneObjHeap 0).dtorRuns⟩ : Heap).mem 0 = some 1 := by
    simp [hmod1]
  have hSM : UINT_MOD < SIZE_MOD := by norm_num [UINT_MOD, SIZE_MOD]
  obtain ⟨h2, hc, hm2⟩ := copies_count k _ ⟨some 0⟩ 0 1 rfl hmem1 (by omega)
  have huc : use_count (1 + k) = k + 1 := by
    unfold use_count
    rw [Nat.mod_eq_of_lt (show 1 + k < UINT_MOD by omega)]
    omega
  simp only [use_count_after_copies, hmk, hc, hm2, huc]

/-- Witness for claim C9 at k = 2: the sole owner plus two copies reads
`use_count() = 3`. -/
theorem C9_use_count_after_k_copies_witness :
    2 + 1 < UINT_MOD ∧ use_count_after_copies 2 = some 3 :=
  ⟨by decide, C9_use_count_after_k_copies 2 (by decide)⟩

/-- Counterexample for claim C9 as stated: the sole owner makes k = 1 copy
and `use_count()` then reads 2 (the copy plus the original handle), not 1. -/
theorem C9_one_copy_reads_two :
    use_count_after_copies 1 ≠ some 1 ∧ use_count_after_copies 1 = some 2 := by
  exact ⟨by decide, by decide⟩

/-- Claim C10: self move-assignment `h = std::move(h)` leaves the handle
unchanged — it still holds its original address and the heap (hence the
shared counter) is untouched; the implementation's outcome is "unchanged",
not "null". -/
theorem C10_self_move_assign_id (h : Heap) (x : intrusive_ptr) :
    intrusive_ptr.move_assign_self h x = some (x, h) := by
  cases x with
  | mk p => rfl
